import Mathlib

/-!
Verification of the browser-context core against its specification.

Shallow embedding of the browser-independent core of the repository:
the time-window scheduler (src/shared/utils/scheduler.ts), the memory
adapter factory (src/shared/memory-adapters/adapter-factory.ts), the
sensitive-information filter (src/shared/utils/sensitive-filter.ts)
and the URL blacklist matcher (src/shared/utils/url-matcher.ts).

JavaScript strings become Lean `String`, arrays become `List`,
thrown exceptions become `Except`/`Option` results, and the host
`RegExp` engine is embedded as an executable backtracking matcher over
a regular-expression syntax tree together with a parser for the
JavaScript regular-expression surface syntax actually exercised by the
repository (character classes, ranges, escapes, word boundaries,
greedy quantifiers, groups, alternation, anchors).  The parser rejects
exactly what the host engine rejects on the repository's patterns; in
particular a group starting `(?` that is not `(?:` is a syntax error,
as in JavaScript, which is what makes the `(?i)`-prefixed default
patterns fail to compile.
-/

namespace Scheduler

/-- `ScheduleConfig` from src/shared/utils/scheduler.ts: `startTime` and
`endTime` in `HH:MM` form and a list of weekdays (0 = Sunday .. 6 =
Saturday, as returned by `dayjs().day()`).  JavaScript numbers in `days`
are modelled as integers (the repository only ever uses integer days). -/
structure ScheduleConfig where
  startTime : String
  endTime : String
  days : List Int
deriving Repr, DecidableEq

/-- The regular expression `^([0-1][0-9]|2[0-3]):[0-5][0-9]$` used by
`Scheduler.validateConfig`, decided directly on the five characters. -/
def isValidTimeFormat (s : String) : Bool :=
  match s.data with
  | [h1, h2, c, m1, m2] =>
    (c = ':' : Bool) &&
      (((h1 = '0' || h1 = '1') && h2.isDigit) ||
        (h1 = '2' && '0'.toNat ≤ h2.toNat && h2.toNat ≤ '3'.toNat)) &&
      ('0'.toNat ≤ m1.toNat && m1.toNat ≤ '5'.toNat) && m2.isDigit
  | _ => false

/-- `Scheduler.validateConfig`: the validation run by the constructor and
by `updateConfig`; a thrown `Error` is modelled as `Except.error` carrying
the message.  The `Array.isArray` test is always true in the typed model. -/
def validateConfig (config : ScheduleConfig) : Except String Unit :=
  if config.startTime = "" || config.endTime = "" then
    .error "Start time and end time are required"
  else if config.days.isEmpty then
    .error "At least one day must be selected"
  else if !(isValidTimeFormat config.startTime && isValidTimeFormat config.endTime) then
    .error "Invalid time format. Expected HH:MM"
  else
    let invalidDays := config.days.filter fun day => decide (day < 0) || decide (day > 6)
    if !invalidDays.isEmpty then
      .error ("Invalid day values: " ++ String.intercalate ", " (invalidDays.map toString))
    else
      .ok ()

/-- `String.prototype.split(':')` at the character-list level. -/
def splitOnColon : List Char → List (List Char)
  | [] => [[]]
  | c :: rest =>
    let r := splitOnColon rest
    if c = ':' then [] :: r
    else
      match r with
      | h :: t => (c :: h) :: t
      | [] => [[c]]

/-- `Number(fragment)` on the digit strings produced by splitting a
validated `HH:MM` time (the `NaN` produced on non-digit input is
collapsed to 0; the repository only ever converts digit fragments). -/
def toNumber (cs : List Char) : Nat :=
  if !cs.isEmpty && cs.all Char.isDigit then
    cs.foldl (fun acc c => acc * 10 + (c.toNat - '0'.toNat)) 0
  else 0

/-- `Scheduler.timeToMinutes`: split on `:` and take hours*60+minutes.
The JavaScript destructuring reads the first two fragments. -/
def timeToMinutes (time : String) : Nat :=
  match splitOnColon time.data with
  | h :: m :: _ => toNumber h * 60 + toNumber m
  | _ => 0

/-- `Scheduler.isTimeInRange`: same-day window when `start <= end`, and a
window crossing midnight when `start > end`. -/
def isTimeInRange (currentTime startTime endTime : String) : Bool :=
  let current := timeToMinutes currentTime
  let start := timeToMinutes startTime
  let e := timeToMinutes endTime
  if start ≤ e then
    decide (current ≥ start) && decide (current ≤ e)
  else
    decide (current ≥ start) || decide (current ≤ e)

/-- `Scheduler.isInSchedule`, parameterised by the two readings the code
takes from `dayjs()`: the current weekday (`now.day()`) and the current
time of day (`now.format('HH:mm')`). -/
def isInSchedule (config : ScheduleConfig) (currentDay : Int) (currentTime : String) : Bool :=
  if !(config.days.contains currentDay) then
    false
  else
    isTimeInRange currentTime config.startTime config.endTime

end Scheduler

namespace MemoryAdapterFactory

/-- Options record of `MemoryConfig` (src/shared/types): only
`options.provider` is inspected by the factory's validation; a falsy
(missing or empty) value is modelled as `""`. -/
structure MemoryOptions where
  provider : String
deriving Repr, DecidableEq

/-- `MemoryConfig` as consumed by the factory: `provider` and `endpoint`
with `""` standing for a missing/falsy field. -/
structure MemoryConfig where
  provider : String
  endpoint : String
  options : MemoryOptions
deriving Repr, DecidableEq

/-- Result shape of `MemoryAdapterFactory.validateConfig`. -/
structure ValidationResult where
  valid : Bool
  errors : List String
deriving Repr, DecidableEq

/-- `MemoryAdapterFactory.getSupportedProviders`. -/
def getSupportedProviders : List String :=
  ["mem0", "zep", "letta", "vector_db"]

/-- Errors pushed by the provider checks of `validateConfig`
(`if (!config.provider) ... else if (!supported.includes(...)) ...`). -/
def providerErrors (config : MemoryConfig) : List String :=
  if config.provider = "" then ["Provider is required"]
  else if getSupportedProviders.contains config.provider then []
  else ["Unsupported provider: " ++ config.provider]

/-- Error pushed by the endpoint check of `validateConfig`. -/
def endpointErrors (config : MemoryConfig) : List String :=
  if config.endpoint = "" then ["Endpoint is required"] else []

/-- Error pushed by the vector_db-specific check of `validateConfig`. -/
def vectorDbErrors (config : MemoryConfig) : List String :=
  if config.provider = "vector_db" then
    if config.options.provider = "" then ["Vector database provider is required"] else []
  else []

/-- `MemoryAdapterFactory.validateConfig`: accumulates every violated
rule in order and reports `valid` iff the error list is empty
(`errors.length === 0`). -/
def validateConfig (config : MemoryConfig) : ValidationResult :=
  let errors := providerErrors config ++ endpointErrors config ++ vectorDbErrors config
  ⟨errors.length == 0, errors⟩

/-- The four adapter classes the factory can instantiate. -/
inductive AdapterKind where
  | mem0
  | zep
  | letta
  | vectorDb
deriving Repr, DecidableEq

/-- `MemoryAdapterFactory.createAdapter`: validates first and throws
`Invalid configuration: <joined errors>` when validation fails; only a
valid config reaches the provider switch, whose `default` branch throws
`Unsupported memory provider: <name>`.  The constructed adapter is
abstracted to its kind. -/
def createAdapter (config : MemoryConfig) : Except String AdapterKind :=
  let validation := validateConfig config
  if !validation.valid then
    .error ("Invalid configuration: " ++ String.intercalate ", " validation.errors)
  else
    match config.provider with
    | "mem0" => .ok .mem0
    | "zep" => .ok .zep
    | "letta" => .ok .letta
    | "vector_db" => .ok .vectorDb
    | _ => .error ("Unsupported memory provider: " ++ config.provider)

end MemoryAdapterFactory

namespace JSRegex

/-- One item of a character class: a literal character, an inclusive
range, or one of the shorthand classes `\d`, `\s`, `\w`. -/
inductive ClassItem where
  | single (c : Char)
  | range (lo hi : Char)
  | digit
  | space
  | word
deriving Repr, DecidableEq

/-- Syntax tree for the JavaScript regular-expression subset used by the
repository: literals, `.`, character classes, concatenation,
alternation, greedy star, the `\b` word-boundary assertion and the
`^`/`$` anchors.  `+`, `?` and the counted repetitions are desugared
into this core by the parser. -/
inductive RE where
  | eps
  | char (c : Char)
  | anyChar
  | cls (neg : Bool) (items : List ClassItem)
  | seq (a b : RE)
  | alt (a b : RE)
  | star (a : RE)
  | wordB
  | bos
  | eos
deriving Repr, DecidableEq

/-- ECMAScript word character (`\w` and the `\b` rule): ASCII letters,
digits and underscore. -/
def isWordChar (c : Char) : Bool :=
  ('a'.toNat ≤ c.toNat && c.toNat ≤ 'z'.toNat) ||
  ('A'.toNat ≤ c.toNat && c.toNat ≤ 'Z'.toNat) ||
  ('0'.toNat ≤ c.toNat && c.toNat ≤ '9'.toNat) || c = '_'

/-- ECMAScript whitespace for `\s` (the ASCII part plus NBSP; the more
exotic Unicode space code points never occur in the repository's data). -/
def isJsSpace (c : Char) : Bool :=
  c = ' ' || c = '\t' || c = '\n' || c = '\r' ||
  c.toNat = 11 || c.toNat = 12 || c.toNat = 160

/-- Case-insensitive character comparison (ASCII case folding, matching
the ECMAScript `i`-flag canonicalisation for the characters in use). -/
def charMatches (ci : Bool) (pat input : Char) : Bool :=
  pat = input || (ci && pat.toLower = input.toLower)

/-- Inclusive code-point range test. -/
def inRange (lo hi c : Char) : Bool :=
  lo.toNat ≤ c.toNat && c.toNat ≤ hi.toNat

/-- Does character `c` satisfy one class item (under the `i` flag, a
range also accepts the other-case form of `c`, per the ECMAScript
canonicalised membership rule restricted to ASCII)? -/
def classItemMatches (ci : Bool) (item : ClassItem) (c : Char) : Bool :=
  match item with
  | .single p => charMatches ci p c
  | .range lo hi =>
    inRange lo hi c || (ci && (inRange lo hi c.toLower || inRange lo hi c.toUpper))
  | .digit => c.isDigit
  | .space => isJsSpace c
  | .word => isWordChar c

/-- Class membership with negation. -/
def classMatches (ci : Bool) (neg : Bool) (items : List ClassItem) (c : Char) : Bool :=
  let inside := items.any fun item => classItemMatches ci item c
  if neg then !inside else inside

/-- ECMAScript line terminators, which `.` does not match. -/
def isLineTerminator (c : Char) : Bool :=
  c = '\n' || c = '\r' || c.toNat = 8232 || c.toNat = 8233

/-- Is the character at index `i` of `s` a word character (`false` out of
bounds)? -/
def wordCharAt (s : List Char) (i : Nat) : Bool :=
  match s.get? i with
  | some c => isWordChar c
  | none => false

/-- The ECMAScript `\b` assertion at position `i`: exactly one of the
neighbouring positions holds a word character. -/
def wordBoundaryAt (s : List Char) (i : Nat) : Bool :=
  (if i = 0 then false else wordCharAt s (i - 1)) != wordCharAt s i

/-- Backtracking matcher: all end positions of matches of `re` starting
at position `i` of `s`, in the ECMAScript preference order (greedy
quantifiers longest-first, alternation left-first).  `fuel` bounds the
recursion depth; `fuelFor` below always supplies enough for the
recursion never to bottom out, since every star iteration strictly
advances the position. -/
def mrun (ci : Bool) (s : List Char) : Nat → RE → Nat → List Nat
  | 0, _, _ => []
  | f + 1, re, i =>
    match re with
    | .eps => [i]
    | .char c =>
      match s.get? i with
      | some c2 => if charMatches ci c c2 then [i + 1] else []
      | none => []
    | .anyChar =>
      match s.get? i with
      | some c2 => if isLineTerminator c2 then [] else [i + 1]
      | none => []
    | .cls neg items =>
      match s.get? i with
      | some c2 => if classMatches ci neg items c2 then [i + 1] else []
      | none => []
    | .seq a b => (mrun ci s f a i).flatMap fun j => mrun ci s f b j
    | .alt a b => mrun ci s f a i ++ mrun ci s f b i
    | .star a =>
      (((mrun ci s f a i).filter fun j => i < j).flatMap fun j =>
        mrun ci s f (.star a) j) ++ [i]
    | .wordB => if wordBoundaryAt s i then [i] else []
    | .bos => if i = 0 then [i] else []
    | .eos => if i = s.length then [i] else []

/-- Number of nodes of a syntax tree. -/
def sizeRE : RE → Nat
  | .seq a b => sizeRE a + sizeRE b + 1
  | .alt a b => sizeRE a + sizeRE b + 1
  | .star a => sizeRE a + 1
  | _ => 1

/-- A recursion-depth budget sufficient for `mrun`: along any path of
the search tree the position is non-decreasing, every self-call of a
star strictly increases it, and between such calls the tree descends
structurally, so the depth is at most `(length+2) * (size+1)`. -/
def fuelFor (re : RE) (s : List Char) : Nat :=
  (s.length + 2) * (sizeRE re + 1)

/-- End position of the preferred (leftmost-greedy) match of `re` at
exactly position `i`, if any. -/
def matchEndAt (ci : Bool) (re : RE) (s : List Char) (i : Nat) : Option Nat :=
  (mrun ci s (fuelFor re s) re i).head?

/-- Search for the leftmost match at or after `start`; fuel counts the
candidate start positions still to try. -/
def findFromAux (ci : Bool) (re : RE) (s : List Char) : Nat → Nat → Option (Nat × Nat)
  | _, 0 => none
  | i, f + 1 =>
    match matchEndAt ci re s i with
    | some e => some (i, e)
    | none => findFromAux ci re s (i + 1) f

/-- `RegExp` search: the leftmost match `(begin, end)` of `re` in `s` at
or after position `start` (ECMAScript `exec` with `lastIndex = start`). -/
def findFrom (ci : Bool) (re : RE) (s : List Char) (start : Nat) : Option (Nat × Nat) :=
  findFromAux ci re s start (s.length + 1 - start)

/-- The slice `s[a..b)`. -/
def subList (s : List Char) (a b : Nat) : List Char :=
  (s.drop a).take (b - a)

/-- Replacement loop of `String.prototype.replace` with a global regex:
repeatedly find the next match, emit the gap and the replacement, and on
an empty match keep the current character and advance by one.  `fuel`
bounds the iterations; `length + 1` always suffices. -/
def replaceAllAux (ci : Bool) (re : RE) (repl : List Char) (s : List Char) :
    Nat → Nat → List Char
  | idx, 0 => s.drop idx
  | idx, f + 1 =>
    match findFrom ci re s idx with
    | none => s.drop idx
    | some (b, e) =>
      if b < e then
        subList s idx b ++ repl ++ replaceAllAux ci re repl s e f
      else
        subList s idx b ++ repl ++ (s.drop b).take 1 ++ replaceAllAux ci re repl s (b + 1) f

/-- `str.replace(re, repl)` for a global regex `re` and a replacement
string containing no `$` substitution patterns (the repository only ever
replaces with plain text). -/
def jsReplaceAll (ci : Bool) (re : RE) (s repl : String) : String :=
  ⟨replaceAllAux ci re repl.data s.data 0 (s.data.length + 1)⟩

/-- `re.test(str)` for a global regex: search from `lastIndex`, and
return the success flag together with the updated `lastIndex` (the match
end on success, `0` on failure). -/
def jsTestG (ci : Bool) (re : RE) (s : String) (lastIndex : Nat) : Bool × Nat :=
  match findFrom ci re s.data lastIndex with
  | some (_, e) => (true, e)
  | none => (false, 0)

/-- `re.test(str)` for a non-global regex: search from position 0, no
state. -/
def jsTest (ci : Bool) (re : RE) (s : String) : Bool :=
  (findFrom ci re s.data 0).isSome

/-- Does the (global, case-insensitive) regex match anywhere in `s`,
starting the search at 0?  This is the stateless core shared by the
filter loop. -/
def hasMatch (re : RE) (s : String) : Bool :=
  (findFrom true re s.data 0).isSome

end JSRegex

namespace JSRegex

/-- The `\x7b` character (written by code point to keep regex sources
readable next to the quantifier escapes used in string literals). -/
def lbraceChar : Char := Char.ofNat 123

/-- The `\x7d` character. -/
def rbraceChar : Char := Char.ofNat 125

/-- `a` repeated exactly `n` times. -/
def repExact (a : RE) : Nat → RE
  | 0 => .eps
  | n + 1 => .seq a (repExact a n)

/-- `a` repeated at most `n` times, greedily (more repetitions
preferred), used to desugar counted repetition with an upper bound. -/
def optUpTo (a : RE) : Nat → RE
  | 0 => .eps
  | n + 1 => .alt (.seq a (optUpTo a n)) .eps

/-- Split a leading run of decimal digits off a character list. -/
def takeDigits : List Char → List Char × List Char
  | [] => ([], [])
  | c :: cs =>
    if c.isDigit then
      let (d, r) := takeDigits cs
      (c :: d, r)
    else ([], c :: cs)

/-- Decimal value of a digit run. -/
def digitsToNat (ds : List Char) : Nat :=
  ds.foldl (fun acc c => acc * 10 + (c.toNat - '0'.toNat)) 0

/-- Escape sequences valid inside a character class. -/
def parseClassEscape (c : Char) : Option ClassItem :=
  if c = 'd' then some .digit
  else if c = 's' then some .space
  else if c = 'w' then some .word
  else if c.isAlphanum then none
  else some (.single c)

/-- Items of a character class, up to and consuming the closing `]`.
A `-` that is the first item or directly precedes `]` is a literal, as
in ECMAScript; a descending range is a syntax error. -/
def parseClassItems : Nat → List Char → Option (List ClassItem × List Char)
  | 0, _ => none
  | f + 1, cs =>
    match cs with
    | [] => none
    | ']' :: rest => some ([], rest)
    | '\\' :: c :: rest =>
      (parseClassEscape c).bind fun item =>
        (parseClassItems f rest).map fun (items, r) => (item :: items, r)
    | c :: '-' :: d :: rest =>
      if d = ']' then
        (parseClassItems f (']' :: rest)).map fun (items, r) =>
          (.single c :: .single '-' :: items, r)
      else if d = '\\' then none
      else if c.toNat ≤ d.toNat then
        (parseClassItems f rest).map fun (items, r) => (.range c d :: items, r)
      else none
    | c :: rest =>
      (parseClassItems f rest).map fun (items, r) => (.single c :: items, r)

/-- Escape sequences valid outside a character class; an alphanumeric
escape with no assigned meaning is rejected (none occurs in the
repository's patterns). -/
def atomEscape (c : Char) : Option RE :=
  if c = 'd' then some (.cls false [.digit])
  else if c = 'D' then some (.cls true [.digit])
  else if c = 's' then some (.cls false [.space])
  else if c = 'S' then some (.cls true [.space])
  else if c = 'w' then some (.cls false [.word])
  else if c = 'W' then some (.cls true [.word])
  else if c = 'b' then some .wordB
  else if c = 'n' then some (.char '\n')
  else if c = 't' then some (.char '\t')
  else if c = 'r' then some (.char '\r')
  else if c.isAlphanum then none
  else some (.char c)

/-- Counted repetition: the source just after the opening brace of
one of the forms `n`, `n,` or `m,n` followed by the closing brace,
desugared greedily. -/
def parseCounted (a : RE) (r : List Char) : Option (RE × List Char) :=
  let (ds, r1) := takeDigits r
  if ds.isEmpty then none
  else
    let m := digitsToNat ds
    match r1 with
    | c :: r2 =>
      if c = rbraceChar then some (repExact a m, r2)
      else if c = ',' then
        match r2 with
        | c2 :: r3 =>
          if c2 = rbraceChar then some (.seq (repExact a m) (.star a), r3)
          else
            let (ds2, r4) := takeDigits r2
            if ds2.isEmpty then none
            else
              let n := digitsToNat ds2
              match r4 with
              | c3 :: r5 =>
                if c3 = rbraceChar then
                  if m ≤ n then some (.seq (repExact a m) (optUpTo a (n - m)), r5)
                  else none
                else none
              | [] => none
        | [] => none
      else none
    | [] => none

/-- Apply an optional quantifier following an atom (`*`, `+`, `?` or a
counted repetition), desugaring into the core syntax. -/
def parseQuant (a : RE) (cs : List Char) : Option (RE × List Char) :=
  match cs with
  | '*' :: r => some (.star a, r)
  | '+' :: r => some (.seq a (.star a), r)
  | '?' :: r => some (.alt a .eps, r)
  | c :: r => if c = lbraceChar then parseCounted a r else some (a, cs)
  | [] => some (a, [])

mutual

/-- Alternation level of the pattern grammar. -/
def parseAlt : Nat → List Char → Option (RE × List Char)
  | 0, _ => none
  | f + 1, cs =>
    (parseSeq f cs).bind fun (a, rest) =>
      match rest with
      | '|' :: r2 => (parseAlt f r2).map fun (b, rest3) => (RE.alt a b, rest3)
      | _ => some (a, rest)

/-- Concatenation level: a (possibly empty) run of quantified atoms. -/
def parseSeq : Nat → List Char → Option (RE × List Char)
  | 0, _ => none
  | f + 1, cs =>
    match cs with
    | [] => some (.eps, [])
    | ')' :: _ => some (.eps, cs)
    | '|' :: _ => some (.eps, cs)
    | _ =>
      (parseAtomQ f cs).bind fun (a, rest) =>
        (parseSeq f rest).map fun (b, rest2) => (RE.seq a b, rest2)

/-- One atom with its optional quantifier. -/
def parseAtomQ : Nat → List Char → Option (RE × List Char)
  | 0, _ => none
  | f + 1, cs => (parseAtom f cs).bind fun (a, rest) => parseQuant a rest

/-- One atom: a group (`(?:` or capturing — a `(?` followed by anything
else, such as the inline-flag attempt `(?i`, is a syntax error exactly
as in ECMAScript), a character class, an escape, `.`, an anchor, or a
literal character.  A dangling quantifier is a syntax error. -/
def parseAtom : Nat → List Char → Option (RE × List Char)
  | 0, _ => none
  | f + 1, cs =>
    match cs with
    | [] => none
    | '(' :: '?' :: ':' :: r =>
      (parseAlt f r).bind fun (a, rest) =>
        match rest with
        | ')' :: r2 => some (a, r2)
        | _ => none
    | '(' :: '?' :: _ => none
    | '(' :: r =>
      (parseAlt f r).bind fun (a, rest) =>
        match rest with
        | ')' :: r2 => some (a, r2)
        | _ => none
    | '[' :: '^' :: r =>
      (parseClassItems (r.length + 1) r).map fun (items, rest) => (RE.cls true items, rest)
    | '[' :: r =>
      (parseClassItems (r.length + 1) r).map fun (items, rest) => (RE.cls false items, rest)
    | '\\' :: c :: r => (atomEscape c).map fun a => (a, r)
    | '.' :: r => some (.anyChar, r)
    | '^' :: r => some (.bos, r)
    | '$' :: r => some (.eos, r)
    | '*' :: _ => none
    | '+' :: _ => none
    | '?' :: _ => none
    | c :: r => some (.char c, r)

end

/-- `new RegExp(pattern, flags)`: parse the whole pattern, `none` on a
syntax error (the thrown `SyntaxError`).  The `g`/`i` flags do not
affect syntax; their runtime effect is modelled by `jsReplaceAll`,
`jsTestG` and the `ci` matcher parameter. -/
def compile (pattern : String) : Option RE :=
  match parseAlt (4 * (pattern.data.length + 1)) pattern.data with
  | some (re, []) => some re
  | _ => none

end JSRegex

namespace SensitiveFilter

/-- `SensitiveFilter.updatePatterns`: compile each pattern string with
flags `gi`; a pattern that fails to compile is logged and dropped
(`map` to `null` plus `filter(Boolean)`). -/
def updatePatterns (patterns : List String) : List JSRegex.RE :=
  patterns.filterMap JSRegex.compile

/-- `SensitiveFilter.filter`: if no compiled patterns are active return
the content unchanged, otherwise run every compiled matcher in order
over the same evolving string, replacing all occurrences with the
replacement text. -/
def filter (patterns : List JSRegex.RE) (replacement : String) (content : String) : String :=
  if patterns.isEmpty then content
  else patterns.foldl (fun acc re => JSRegex.jsReplaceAll true re acc replacement) content

/-- `patterns.some(pattern => pattern.test(content))` over global
regexes: short-circuiting, and each executed `test` updates that
regex's `lastIndex`; regexes after the first hit keep their state. -/
def someTest : List (JSRegex.RE × Nat) → String → Bool × List (JSRegex.RE × Nat)
  | [], _ => (false, [])
  | (re, li) :: rest, content =>
    let r := JSRegex.jsTestG true re content li
    if r.1 then (true, (re, r.2) :: rest)
    else
      let r2 := someTest rest content
      (r2.1, (re, r.2) :: r2.2)

/-- `SensitiveFilter.hasSensitiveInfo`: `test` over the compiled
patterns.  Because the compiled regexes carry the `g` flag, the per-
pattern `lastIndex` survives between calls, so the instance state (the
pattern list with each `lastIndex`) is threaded explicitly. -/
def hasSensitiveInfo (state : List (JSRegex.RE × Nat)) (content : String) :
    Bool × List (JSRegex.RE × Nat) :=
  someTest state content

/-- Fresh instance state after `updatePatterns`: every compiled regex
starts with `lastIndex = 0`. -/
def initState (patterns : List String) : List (JSRegex.RE × Nat) :=
  (updatePatterns patterns).map fun re => (re, 0)

/-- `SensitiveFilter.getDefaultPatterns`: the ten pattern strings from
src/shared/utils/sensitive-filter.ts (email, Chinese mobile number,
Chinese ID number, bank card, credit card, password field, API key, IP
address, US SSN, Chinese licence plate).  Braces are written with
code-point escapes; the strings are byte-for-byte those of the source. -/
def getDefaultPatterns : List String :=
  [ "\\b[A-Za-z0-9._%+-]+@[A-Za-z0-9.-]+\\.[A-Z|a-z]\x7b2,\x7d\\b"
  , "\\b1[3-9]\\d\x7b9\x7d\\b"
  , "\\b\\d\x7b17\x7d[\\dXx]\\b"
  , "\\b\\d\x7b16,19\x7d\\b"
  , "\\b\\d\x7b4\x7d[\\s-]?\\d\x7b4\x7d[\\s-]?\\d\x7b4\x7d[\\s-]?\\d\x7b4\x7d\\b"
  , "(?i)(password|pwd|pass|secret|key)\\s*[:=]\\s*[^\\s]+"
  , "(?i)(api[_-]?key|access[_-]?token|secret[_-]?key)\\s*[:=]\\s*[^\\s]+"
  , "\\b(?:[0-9]\x7b1,3\x7d\\.)\x7b3\x7d[0-9]\x7b1,3\x7d\\b"
  , "\\b\\d\x7b3\x7d-\\d\x7b2\x7d-\\d\x7b4\x7d\\b"
  , "\\b[京津沪渝冀豫云辽黑湘皖鲁新苏浙赣鄂桂甘晋蒙陕吉闽贵粤青藏川宁琼使领A-Z]\x7b1\x7d[A-Z]\x7b1\x7d[A-Z0-9]\x7b4\x7d[A-Z0-9挂学警港澳]\x7b1\x7d\\b"
  ]

end SensitiveFilter

namespace URLMatcher

/-- The two projections of the host `URL` object that
`URLMatcher.isBlacklisted` reads. -/
structure URLObj where
  hostname : String
  pathname : String
deriving Repr, DecidableEq

/-- An entry of the runtime pattern array: a string, or any non-string
value (whose only relevant behaviour is that string methods throw on
it and that `typeof` is not `'string'`). -/
inductive JSVal where
  | str (s : String)
  | other
deriving Repr, DecidableEq

/-- Substring search over character lists. -/
def containsSub (sub : List Char) : List Char → Bool
  | [] => sub.isEmpty
  | c :: t => sub.isPrefixOf (c :: t) || containsSub sub t

/-- `s.includes(sub)`. -/
def jsIncludes (s sub : String) : Bool :=
  containsSub sub.data s.data

/-- `s.startsWith(pre)`. -/
def startsWithStr (s pre : String) : Bool :=
  pre.data.isPrefixOf s.data

/-- `s.endsWith(suf)`. -/
def endsWithStr (s suf : String) : Bool :=
  suf.data.isSuffixOf s.data

/-- ECMAScript `TrimString` whitespace: whitespace, line terminators and
the BOM. -/
def isJsTrimWhite (c : Char) : Bool :=
  JSRegex.isJsSpace c || JSRegex.isLineTerminator c || c.toNat = 65279

/-- `s.trim()`. -/
def jsTrim (s : String) : String :=
  ⟨((s.data.dropWhile isJsTrimWhite).reverse.dropWhile isJsTrimWhite).reverse⟩

/-- `pattern.replace(/\./g, '\\.').replace(/\*/g, '.*')`: escape the
literal dots, then expand the wildcards (the two passes fused — the
first introduces no `*` and the second only inspects `*`). -/
def escapeWildcard (p : String) : String :=
  ⟨p.data.flatMap fun c =>
    if c = '.' then ['\\', '.'] else if c = '*' then ['.', '*'] else [c]⟩

/-- One iteration of the `patterns.some` callback: wildcard patterns are
compiled to an anchored case-insensitive regex tried against the
hostname and the full URL; otherwise prefix dispatch on `http`, `.`
and `/`, with substring containment as the fallback.  `Except.error`
stands for a thrown exception (a `RegExp` syntax error, or any string
method invoked on a non-string entry). -/
def matchOne (u : URLObj) (url : String) (p : JSVal) : Except Unit Bool :=
  match p with
  | .other => .error ()
  | .str pattern =>
    if jsIncludes pattern "*" then
      match JSRegex.compile ("^" ++ escapeWildcard pattern ++ "$") with
      | none => .error ()
      | some re => .ok (JSRegex.jsTest true re u.hostname || JSRegex.jsTest true re url)
    else if startsWithStr pattern "http" then .ok (jsIncludes url pattern)
    else if startsWithStr pattern "." then .ok (endsWithStr u.hostname pattern)
    else if startsWithStr pattern "/" then .ok (startsWithStr u.pathname pattern)
    else .ok (jsIncludes url pattern)

/-- `Array.prototype.some` with a fallible callback: short-circuits on
the first `true`, and an exception aborts the whole traversal. -/
def someE (f : JSVal → Except Unit Bool) : List JSVal → Except Unit Bool
  | [] => .ok false
  | p :: rest =>
    match f p with
    | .error e => .error e
    | .ok true => .ok true
    | .ok false => someE f rest

/-- `URLMatcher.isBlacklisted`, parameterised by the host URL parser
(`new URL(...)` modelled as `parse`, `none` for a thrown `TypeError`):
falsy or non-parsable URLs and an empty pattern list yield `false`, and
any exception inside the `try` block is caught and also yields
`false`. -/
def isBlacklisted (parse : String → Option URLObj) (patterns : List JSVal) (url : String) :
    Bool :=
  if url = "" then false
  else if patterns.isEmpty then false
  else
    match parse url with
    | none => false
    | some u =>
      match someE (matchOne u url) patterns with
      | .ok b => b
      | .error _ => false

/-- The `for` loop of `URLMatcher.getMatchingPattern`: note the loop
body tests `isBlacklisted(url)`, not the loop variable. -/
def getMatchingPatternGo (parse : String → Option URLObj) (patterns : List JSVal)
    (url : String) : List JSVal → Option JSVal
  | [] => none
  | p :: rest =>
    if isBlacklisted parse patterns url then some p
    else getMatchingPatternGo parse patterns url rest

/-- `URLMatcher.getMatchingPattern`. -/
def getMatchingPattern (parse : String → Option URLObj) (patterns : List JSVal)
    (url : String) : Option JSVal :=
  getMatchingPatternGo parse patterns url patterns

/-- The filter predicate of `URLMatcher.updatePatterns`: keep exactly
the string entries that are non-empty after trimming. -/
def validEntry : JSVal → Bool
  | .str s => !((jsTrim s).data.length == 0)
  | .other => false

/-- `URLMatcher.updatePatterns`: the `Array.isArray` guard never fires
in the typed model; invalid entries are warned about and filtered out. -/
def updatePatterns (patterns : List JSVal) : List JSVal :=
  patterns.filter validEntry

/-- The `URLMatcher` constructor body: `this.patterns = patterns` —
the incoming array is stored verbatim, without the filtering that
`updatePatterns` performs. -/
def constructorPatterns (patterns : List JSVal) : List JSVal :=
  patterns

/-- A concrete host URL parser used to instantiate the universally
quantified matcher theorems: resolves exactly one absolute URL. -/
def demoParse : String → Option URLObj :=
  fun s => if s = "https://x.com/p" then some ⟨"x.com", "/p"⟩ else none

/-- A concrete pattern list whose first entry does not match the demo
URL but whose second does. -/
def demoPatterns : List JSVal :=
  [.str "zzz", .str "x.com"]

end URLMatcher

/-! ## Supporting lemmas -/

/-- `hasMatch` is the defined `isSome` of the underlying search. -/
theorem hasMatch_false_iff (re : JSRegex.RE) (s : String) :
    JSRegex.hasMatch re s = false ↔ JSRegex.findFrom true re s.data 0 = none := by
  unfold JSRegex.hasMatch
  cases h : JSRegex.findFrom true re s.data 0 <;> simp [h]

/-- A global replace on a string the regex does not match anywhere
returns that string unchanged. -/
theorem jsReplaceAll_of_no_match (re : JSRegex.RE) (s repl : String)
    (h : JSRegex.findFrom true re s.data 0 = none) :
    JSRegex.jsReplaceAll true re s repl = s := by
  obtain ⟨d⟩ := s
  simp only [JSRegex.jsReplaceAll] at h ⊢
  simp only [JSRegex.replaceAllAux]
  rw [h]
  simp

/-- The filter's fold leaves a string untouched when none of the
compiled patterns matches it. -/
theorem foldl_filter_no_match (replacement t : String) :
    ∀ ps : List JSRegex.RE, (ps.all fun re => !(JSRegex.hasMatch re t)) = true →
      ps.foldl (fun acc re => JSRegex.jsReplaceAll true re acc replacement) t = t := by
  intro ps
  induction ps with
  | nil => intro _; rfl
  | cons re rest ih =>
    intro h
    rw [List.all_cons, Bool.and_eq_true] at h
    have h1 : JSRegex.hasMatch re t = false := by
      cases hm : JSRegex.hasMatch re t
      · rfl
      · rw [hm] at h; simp at h
    have hr : JSRegex.jsReplaceAll true re t replacement = t :=
      jsReplaceAll_of_no_match re t replacement ((hasMatch_false_iff re t).mp h1)
    rw [List.foldl_cons, hr]
    exact ih h.2

/-- `SensitiveFilter.filter` is the identity on strings free of matches
of every active pattern. -/
theorem filter_of_no_match (ps : List JSRegex.RE) (replacement t : String)
    (h : (ps.all fun re => !(JSRegex.hasMatch re t)) = true) :
    SensitiveFilter.filter ps replacement t = t := by
  unfold SensitiveFilter.filter
  split
  · rfl
  · exact foldl_filter_no_match replacement t ps h

/-- An empty pattern list never blacklists anything. -/
theorem isBlacklisted_nil (parse : String → Option URLMatcher.URLObj) (url : String) :
    URLMatcher.isBlacklisted parse [] url = false := by
  unfold URLMatcher.isBlacklisted
  simp

/-- When `isBlacklisted` is false the loop of `getMatchingPattern`
falls through every iteration. -/
theorem getMatchingPatternGo_of_false (parse : String → Option URLMatcher.URLObj)
    (patterns : List URLMatcher.JSVal) (url : String)
    (h : URLMatcher.isBlacklisted parse patterns url = false) :
    ∀ l, URLMatcher.getMatchingPatternGo parse patterns url l = none := by
  intro l
  induction l with
  | nil => rfl
  | cons p rest ih => simp [URLMatcher.getMatchingPatternGo, h, ih]

/-- A non-empty provider outside the supported list contributes exactly
its `Unsupported provider` error. -/
theorem providerErrors_of_unsupported (config : MemoryAdapterFactory.MemoryConfig)
    (h1 : config.provider ≠ "")
    (h2 : MemoryAdapterFactory.getSupportedProviders.contains config.provider = false) :
    MemoryAdapterFactory.providerErrors config =
      ["Unsupported provider: " ++ config.provider] := by
  unfold MemoryAdapterFactory.providerErrors
  rw [if_neg h1, h2]
  simp

/-- `validateConfig` reports invalid whenever its error list is
non-empty. -/
theorem validateConfig_valid_false (config : MemoryAdapterFactory.MemoryConfig)
    (h : (MemoryAdapterFactory.validateConfig config).errors ≠ []) :
    (MemoryAdapterFactory.validateConfig config).valid = false := by
  unfold MemoryAdapterFactory.validateConfig at h ⊢
  simp only at h ⊢
  rw [beq_eq_false_iff_ne]
  simpa [List.length_eq_zero] using h

/-! ## Claim theorems -/

/-- Claim C1, counterexample: for the scheduler configured with
`startTime "22:00"`, `endTime "06:00"`, `days [1]`, a Tuesday 02:00
instant (weekday 2, time `02:00`) is NOT in schedule, contradicting the
claim that it is: the weekday membership test runs against the current
day even when the window crosses midnight. -/
theorem C1_counterexample :
    Scheduler.isInSchedule ⟨"22:00", "06:00", [1]⟩ 2 "02:00" = false := by
  decide

/-- Claim C1, amended: with `startTime "22:00"`, `endTime "06:00"`,
`days [1]`, a Monday 23:00 instant is in schedule, while a Monday 12:00
instant and a Tuesday 02:00 instant are not (Tuesday's weekday 2 is not
a member of `days`). -/
theorem C1_amended :
    Scheduler.isInSchedule ⟨"22:00", "06:00", [1]⟩ 1 "23:00" = true ∧
    Scheduler.isInSchedule ⟨"22:00", "06:00", [1]⟩ 1 "12:00" = false ∧
    Scheduler.isInSchedule ⟨"22:00", "06:00", [1]⟩ 2 "02:00" = false := by
  decide

/-- Claim C2, counterexample: `createAdapter` on provider
`"unsupported"` raises `Invalid configuration: Unsupported provider:
unsupported` (from the validation step), which is not the claimed
message `Unsupported memory provider: unsupported` — that branch of the
switch is unreachable for an invalid provider. -/
theorem C2_counterexample :
    MemoryAdapterFactory.createAdapter ⟨"unsupported", "http://example.com", ⟨""⟩⟩ =
      Except.error "Invalid configuration: Unsupported provider: unsupported" ∧
    "Invalid configuration: Unsupported provider: unsupported" ≠
      "Unsupported memory provider: unsupported" := by
  exact ⟨rfl, by decide⟩

/-- Claim C2, amended: for every config whose provider is non-empty and
not one of the four supported names, `createAdapter` raises an error
whose message is `Invalid configuration: ` followed by the joined
validation errors, among which is `Unsupported provider: <name>`
containing the literal provider name. -/
theorem C2_amended (config : MemoryAdapterFactory.MemoryConfig)
    (h1 : config.provider ≠ "")
    (h2 : MemoryAdapterFactory.getSupportedProviders.contains config.provider = false) :
    ∃ errs : List String,
      MemoryAdapterFactory.createAdapter config =
        Except.error ("Invalid configuration: " ++ String.intercalate ", " errs) ∧
      ("Unsupported provider: " ++ config.provider) ∈ errs := by
  refine ⟨(MemoryAdapterFactory.validateConfig config).errors, ?_, ?_⟩
  · have hmem : ("Unsupported provider: " ++ config.provider) ∈
        (MemoryAdapterFactory.validateConfig config).errors := by
      unfold MemoryAdapterFactory.validateConfig
      simp [providerErrors_of_unsupported config h1 h2]
    have hv : (MemoryAdapterFactory.validateConfig config).valid = false :=
      validateConfig_valid_false config (by
        intro hnil
        rw [hnil] at hmem
        exact (List.not_mem_nil _) hmem)
    unfold MemoryAdapterFactory.createAdapter
    simp only []
    rw [hv]
    simp
  · unfold MemoryAdapterFactory.validateConfig
    simp [providerErrors_of_unsupported config h1 h2]

/-- Claim C2, witness: the amended statement instantiated at the
provider name `unsupported`. -/
theorem C2_witness :
    ∃ errs : List String,
      MemoryAdapterFactory.createAdapter ⟨"unsupported", "http://example.com", ⟨""⟩⟩ =
        Except.error ("Invalid configuration: " ++ String.intercalate ", " errs) ∧
      ("Unsupported provider: " ++ "unsupported") ∈ errs :=
  C2_amended ⟨"unsupported", "http://example.com", ⟨""⟩⟩ (by decide) (by decide)

set_option maxRecDepth 4000 in
/-- Claim C3, code evaluation at the failing input: the two
`(?i)`-prefixed default patterns (labeled password and API-key forms)
fail to compile and are dropped by `updatePatterns`, so filtering the
representative literal `password=secret123` over the compiled default
patterns leaves it completely unredacted, while representatives of the
still-compiling patterns (here an email address) are replaced. -/
theorem C3_code_eval :
    JSRegex.compile "(?i)(password|pwd|pass|secret|key)\\s*[:=]\\s*[^\\s]+" = none ∧
    JSRegex.compile "(?i)(api[_-]?key|access[_-]?token|secret[_-]?key)\\s*[:=]\\s*[^\\s]+" = none ∧
    SensitiveFilter.filter (SensitiveFilter.updatePatterns SensitiveFilter.getDefaultPatterns)
        "[FILTERED]" "password=secret123" = "password=secret123" ∧
    SensitiveFilter.filter (SensitiveFilter.updatePatterns SensitiveFilter.getDefaultPatterns)
        "[FILTERED]" "a@b.co" = "[FILTERED]" := by
  refine ⟨by decide, by decide, ?_, ?_⟩
  · decide
  · decide

/-- Claim C4, code evaluation at the failing input: a configuration
with an empty `days` list is rejected by the validation run at
construction and `updateConfig` time (`At least one day must be
selected`), although the eligibility check itself would return false at
every instant for such a configuration, which is what the claim (and
the repository's own end-to-end test) expects. -/
theorem C4_code_eval :
    Scheduler.validateConfig ⟨"09:00", "18:00", []⟩ =
      Except.error "At least one day must be selected" ∧
    ∀ (d : Int) (t : String), Scheduler.isInSchedule ⟨"09:00", "18:00", []⟩ d t = false := by
  refine ⟨rfl, fun d t => rfl⟩

/-- Claim C5, counterexample: with the single pattern `ab` and
replacement `a`, the replacement text matches no active pattern, yet
`filter` is not idempotent on `abb`: the first pass yields `ab` (the
replacement abuts the remaining `b`), and the second pass yields `a`. -/
theorem C5_counterexample :
    ((SensitiveFilter.updatePatterns ["ab"]).all fun re => !(JSRegex.hasMatch re "a")) = true ∧
    SensitiveFilter.filter (SensitiveFilter.updatePatterns ["ab"]) "a"
        (SensitiveFilter.filter (SensitiveFilter.updatePatterns ["ab"]) "a" "abb") ≠
      SensitiveFilter.filter (SensitiveFilter.updatePatterns ["ab"]) "a" "abb" := by
  constructor
  · decide
  · decide

/-- Claim C5, amended: `filter(filter(s)) = filter(s)` whenever the
already-filtered output contains no match of any active pattern (the
original side condition — that the replacement text itself matches no
pattern — is insufficient because the replacement can combine with
adjacent text to form a new match). -/
theorem C5_amended (patterns : List JSRegex.RE) (replacement s : String)
    (h : (patterns.all fun re =>
        !(JSRegex.hasMatch re (SensitiveFilter.filter patterns replacement s))) = true) :
    SensitiveFilter.filter patterns replacement (SensitiveFilter.filter patterns replacement s) =
      SensitiveFilter.filter patterns replacement s :=
  filter_of_no_match patterns replacement _ h

/-- Claim C5, witness: the amended statement instantiated at pattern
`ab`, replacement `Z` and input `abb` (filtered output `Zb`, free of
matches). -/
theorem C5_witness :
    SensitiveFilter.filter (SensitiveFilter.updatePatterns ["ab"]) "Z"
        (SensitiveFilter.filter (SensitiveFilter.updatePatterns ["ab"]) "Z" "abb") =
      SensitiveFilter.filter (SensitiveFilter.updatePatterns ["ab"]) "Z" "abb" :=
  C5_amended (SensitiveFilter.updatePatterns ["ab"]) "Z" "abb" (by decide)

/-- Claim C6: `isBlacklisted` returns false on the empty string, on any
input the URL parser cannot resolve, and whenever the configured
pattern list is empty; in the embedding the function is total by
construction, every internal exception being caught to `false`. -/
theorem C6_theorem (parse : String → Option URLMatcher.URLObj)
    (patterns : List URLMatcher.JSVal) (url : String)
    (h : url = "" ∨ parse url = none ∨ patterns = []) :
    URLMatcher.isBlacklisted parse patterns url = false := by
  unfold URLMatcher.isBlacklisted
  rcases h with h | h | h
  · simp [h]
  · simp [h]
  · simp [h]

/-- Claim C6, witness: a parser resolving nothing, a non-empty pattern
list and a non-URL input. -/
theorem C6_witness :
    URLMatcher.isBlacklisted (fun _ => none) [URLMatcher.JSVal.str "ads"] "notaurl" = false :=
  C6_theorem (fun _ => none) [URLMatcher.JSVal.str "ads"] "notaurl" (Or.inr (Or.inl rfl))

/-- Claim C7, counterexample: the constructor stores the given pattern
array verbatim, so constructing with a single whitespace-only entry
retains an entry that is empty after trimming, contradicting the claim
that construction discards such entries. -/
theorem C7_counterexample :
    ¬ ((URLMatcher.constructorPatterns [URLMatcher.JSVal.str " "]).all
        URLMatcher.validEntry = true) := by
  decide

/-- Claim C7, amended: `updatePatterns` discards, without raising, every
entry that is not a string or is empty after trimming, so its result
contains only valid entries; the constructor, by contrast, stores the
given list verbatim without any filtering. -/
theorem C7_amended (patterns : List URLMatcher.JSVal) :
    (URLMatcher.updatePatterns patterns).all URLMatcher.validEntry = true ∧
    URLMatcher.constructorPatterns patterns = patterns := by
  refine ⟨?_, rfl⟩
  rw [List.all_eq_true]
  intro p hp
  exact (List.mem_filter.mp hp).2

/-- Claim C8: `validateConfig` reports every violated rule — a missing
endpoint always contributes its error and makes the result invalid, an
unsupported (non-empty) provider always contributes its error, a
`vector_db` config without `options.provider` always contributes its
error, and a concrete config violating two rules yields exactly two
errors. -/
theorem C8_theorem :
    (∀ config : MemoryAdapterFactory.MemoryConfig, config.endpoint = "" →
        (MemoryAdapterFactory.validateConfig config).valid = false ∧
        "Endpoint is required" ∈ (MemoryAdapterFactory.validateConfig config).errors) ∧
    (∀ config : MemoryAdapterFactory.MemoryConfig, config.provider ≠ "" →
        MemoryAdapterFactory.getSupportedProviders.contains config.provider = false →
        ("Unsupported provider: " ++ config.provider) ∈
          (MemoryAdapterFactory.validateConfig config).errors) ∧
    (∀ config : MemoryAdapterFactory.MemoryConfig, config.provider = "vector_db" →
        config.options.provider = "" →
        "Vector database provider is required" ∈
          (MemoryAdapterFactory.validateConfig config).errors) ∧
    (MemoryAdapterFactory.validateConfig ⟨"bogus", "", ⟨""⟩⟩).errors.length = 2 := by
  refine ⟨?_, ?_, ?_, by decide⟩
  · intro config h
    have he : MemoryAdapterFactory.endpointErrors config = ["Endpoint is required"] := by
      simp [MemoryAdapterFactory.endpointErrors, h]
    have hmem : "Endpoint is required" ∈ (MemoryAdapterFactory.validateConfig config).errors := by
      unfold MemoryAdapterFactory.validateConfig
      simp [he]
    refine ⟨?_, hmem⟩
    refine validateConfig_valid_false config ?_
    intro hnil
    rw [hnil] at hmem
    exact (List.not_mem_nil _) hmem
  · intro config h1 h2
    unfold MemoryAdapterFactory.validateConfig
    simp [providerErrors_of_unsupported config h1 h2]
  · intro config h1 h2
    have hv : MemoryAdapterFactory.vectorDbErrors config =
        ["Vector database provider is required"] := by
      simp [MemoryAdapterFactory.vectorDbErrors, h1, h2]
    unfold MemoryAdapterFactory.validateConfig
    simp [hv]

/-- Claim C8, witness: a config with a supported provider and an empty
endpoint is invalid with an error mentioning the endpoint. -/
theorem C8_witness :
    (MemoryAdapterFactory.validateConfig ⟨"mem0", "", ⟨""⟩⟩).valid = false ∧
    "Endpoint is required" ∈ (MemoryAdapterFactory.validateConfig ⟨"mem0", "", ⟨""⟩⟩).errors :=
  C8_theorem.1 ⟨"mem0", "", ⟨""⟩⟩ rfl

/-- Claim C9: whenever `isBlacklisted` holds, `getMatchingPattern`
returns the first configured pattern (the loop condition never consults
the loop variable), and whenever it does not hold it returns `none`. -/
theorem C9_theorem (parse : String → Option URLMatcher.URLObj)
    (patterns : List URLMatcher.JSVal) (url : String) :
    (URLMatcher.isBlacklisted parse patterns url = true →
      URLMatcher.getMatchingPattern parse patterns url = patterns.head?) ∧
    (URLMatcher.isBlacklisted parse patterns url = false →
      URLMatcher.getMatchingPattern parse patterns url = none) := by
  constructor
  · intro h
    match patterns, h with
    | [], h => rw [isBlacklisted_nil] at h; exact absurd h (by simp)
    | p :: rest, h =>
      simp [URLMatcher.getMatchingPattern, URLMatcher.getMatchingPatternGo, h]
  · intro h
    exact getMatchingPatternGo_of_false parse patterns url h patterns

/-- Claim C9, witness: on the demo matcher the second pattern is the
one that matches, yet the first configured pattern is returned; on a
non-matching URL the result is `none`. -/
theorem C9_witness :
    URLMatcher.getMatchingPattern URLMatcher.demoParse URLMatcher.demoPatterns "https://x.com/p" =
      URLMatcher.demoPatterns.head? ∧
    URLMatcher.getMatchingPattern URLMatcher.demoParse URLMatcher.demoPatterns "nope" = none :=
  ⟨(C9_theorem URLMatcher.demoParse URLMatcher.demoPatterns "https://x.com/p").1 (by decide),
   (C9_theorem URLMatcher.demoParse URLMatcher.demoPatterns "nope").2 (by decide)⟩

/-- Claim C10: `hasSensitiveInfo` is not a pure function of its
argument — with the single pattern `a` and content `a`, the first call
returns true and advances the compiled global regex's `lastIndex`, so
an immediately repeated call on the same instance returns false. -/
theorem C10_theorem :
    (SensitiveFilter.hasSensitiveInfo (SensitiveFilter.initState ["a"]) "a").1 = true ∧
    (SensitiveFilter.hasSensitiveInfo
        ((SensitiveFilter.hasSensitiveInfo (SensitiveFilter.initState ["a"]) "a").2) "a").1 =
      false := by
  decide
